import Mathlib

/-!
Verification of the session/QR-token issuance-and-verification protocol with
geofenced attendance recording, embedded from the TypeScript sources:
  - `src/src/utils/mockBackend.tsx` : the in-browser mock backend
    (class `MockDatabase`) followed by the Supabase edge-function server
    (Hono app, helpers `generateQRToken`, `verifyQRToken`,
    `calculateDistance`, `isWithinCampus`).

JavaScript strings are modelled as `List Char`; epoch-millisecond times as
`Nat`; JSON numbers as `Int` (all numbers appearing in the token payloads are
integral millisecond timestamps); coordinates and distances as real numbers
(the IEEE-754 arithmetic of the source is modelled by exact real arithmetic).
Thrown `Error` messages are modelled as `Except String` values carrying the
exact message text.
-/

/-- JavaScript strings, modelled as lists of characters. -/
abbrev Str := List Char

/-- The character `\x7b` (left curly brace). -/
def lbrace : Char := Char.ofNat 123

/-- The character `\x7d` (right curly brace). -/
def rbrace : Char := Char.ofNat 125

/-- The first element of the destructuring `const [token, signature] =
qrData.split(':')`: the fragment of `qrData` before its first colon (the
whole string when it has no colon). -/
def firstFrag : Str → Str
  | [] => []
  | c :: rest => if c = ':' then [] else c :: firstFrag rest

/-- The text after the first colon, `none` when there is no colon. -/
def afterColon : Str → Option Str
  | [] => none
  | c :: rest => if c = ':' then some rest else afterColon rest

/-- The second element of the destructuring `const [token, signature] =
qrData.split(':')`: the fragment between the first and second colons; `none`
models the JavaScript value `undefined`, obtained when the input contains no
colon at all. -/
def secondFrag (s : Str) : Option Str := (afterColon s).map firstFrag

/-- Decimal digits of a natural number, as produced by JavaScript number to
string coercion for the (integral, below 2^53) timestamps in this code. -/
def natDigits (n : Nat) : Str := Nat.toDigits 10 n

/-! ## JSON values

The payloads serialized and parsed by the source (`JSON.stringify` /
`JSON.parse`).  Numbers are modelled as integers: every number the source
puts in a payload is an integral epoch-millisecond timestamp. -/

inductive Json where
  | str : Str → Json
  | num : Int → Json
  | bool : Bool → Json
  | null : Json
  | arr : List Json → Json
  | obj : List (Str × Json) → Json

/-- JavaScript truthiness of a parsed JSON value (`if (!qrPayload) ...`). -/
def jsTruthy : Json → Bool
  | .str s => s ≠ []
  | .num n => n ≠ 0
  | .bool b => b
  | .null => false
  | .arr _ => true
  | .obj _ => true

/-- Property access `payload.key` on a parsed JSON value: `some v` when the
value is an object with a member `key` (for duplicate keys `JSON.parse`
keeps the last), `none` models the JavaScript value `undefined`. -/
def Json.getField : Json → Str → Option Json
  | .obj fields, key => (fields.reverse.find? (fun kv => kv.1 == key)).map (·.2)
  | _, _ => none

/-- Skip JSON whitespace, as `JSON.parse` does between tokens. -/
def skipWs : Str → Str
  | [] => []
  | c :: rest =>
    if c = ' ' ∨ c = '\t' ∨ c = '\n' ∨ c = '\r' then skipWs rest else c :: rest

/-- Value of a hexadecimal digit, for `\uXXXX` escapes. -/
def hexVal (c : Char) : Option Nat :=
  if '0' ≤ c ∧ c ≤ '9' then some (c.toNat - 48)
  else if 'a' ≤ c ∧ c ≤ 'f' then some (c.toNat - 87)
  else if 'A' ≤ c ∧ c ≤ 'F' then some (c.toNat - 55)
  else none

/-- Parse the body of a JSON string after the opening quote, returning the
decoded characters and the input remaining after the closing quote. -/
def parseStringBody : Nat → Str → Option (Str × Str)
  | 0, _ => none
  | _, [] => none
  | fuel+1, c :: rest =>
    if c = '"' then some ([], rest)
    else if c = '\\' then
      match rest with
      | [] => none
      | e :: rest2 =>
        let cont := fun (ch : Char) (r : Str) =>
          (parseStringBody fuel r).map (fun p => (ch :: p.1, p.2))
        if e = '"' then cont '"' rest2
        else if e = '\\' then cont '\\' rest2
        else if e = '/' then cont '/' rest2
        else if e = 'n' then cont '\n' rest2
        else if e = 't' then cont '\t' rest2
        else if e = 'r' then cont '\r' rest2
        else if e = 'b' then cont (Char.ofNat 8) rest2
        else if e = 'f' then cont (Char.ofNat 12) rest2
        else if e = 'u' then
          match rest2 with
          | h1 :: h2 :: h3 :: h4 :: rest3 =>
            match hexVal h1, hexVal h2, hexVal h3, hexVal h4 with
            | some a, some b, some c2, some d =>
              cont (Char.ofNat (a * 4096 + b * 256 + c2 * 16 + d)) rest3
            | _, _, _, _ => none
          | _ => none
        else none
    else if c.toNat < 32 then none
    else (parseStringBody fuel rest).map (fun p => (c :: p.1, p.2))

/-- Longest prefix of decimal digits, and the rest of the input. -/
def takeDigits : Str → Str × Str
  | [] => ([], [])
  | c :: rest =>
    if c.isDigit then
      let r := takeDigits rest
      (c :: r.1, r.2)
    else ([], c :: rest)

/-- Value of a digit string. -/
def digitsToNat (l : Str) : Nat :=
  l.foldl (fun acc c => acc * 10 + (c.toNat - 48)) 0

mutual

/-- Recursive-descent model of `JSON.parse` on one value.  Numbers are
restricted to optionally-signed integers: all numbers the source serializes
are integral epoch-millisecond timestamps. -/
def parseValue : Nat → Str → Option (Json × Str)
  | 0, _ => none
  | fuel+1, s =>
    match skipWs s with
    | [] => none
    | c :: rest =>
      if c = lbrace then
        match skipWs rest with
        | [] => none
        | c2 :: rest2 =>
          if c2 = rbrace then some (.obj [], rest2)
          else (parseMembers fuel (c2 :: rest2)).map (fun p => (.obj p.1, p.2))
      else if c = '[' then
        match skipWs rest with
        | [] => none
        | c2 :: rest2 =>
          if c2 = ']' then some (.arr [], rest2)
          else (parseElems fuel (c2 :: rest2)).map (fun p => (.arr p.1, p.2))
      else if c = '"' then
        (parseStringBody (fuel+1) rest).map (fun p => (.str p.1, p.2))
      else if c = 't' then
        match rest with
        | 'r' :: 'u' :: 'e' :: r => some (.bool true, r)
        | _ => none
      else if c = 'f' then
        match rest with
        | 'a' :: 'l' :: 's' :: 'e' :: r => some (.bool false, r)
        | _ => none
      else if c = 'n' then
        match rest with
        | 'u' :: 'l' :: 'l' :: r => some (.null, r)
        | _ => none
      else if c = '-' then
        match takeDigits rest with
        | ([], _) => none
        | (ds, r) => some (.num (-(digitsToNat ds : Int)), r)
      else if c.isDigit then
        match takeDigits (c :: rest) with
        | (ds, r) => some (.num (digitsToNat ds), r)
      else none

/-- Members of a JSON object after the opening brace (nonempty case). -/
def parseMembers : Nat → Str → Option (List (Str × Json) × Str)
  | 0, _ => none
  | fuel+1, s =>
    match skipWs s with
    | [] => none
    | c :: rest =>
      if c = '"' then
        match parseStringBody (fuel+1) rest with
        | none => none
        | some (key, r1) =>
          match skipWs r1 with
          | [] => none
          | c2 :: r2 =>
            if c2 = ':' then
              match parseValue fuel r2 with
              | none => none
              | some (v, r3) =>
                match skipWs r3 with
                | [] => none
                | c3 :: r4 =>
                  if c3 = ',' then
                    (parseMembers fuel r4).map (fun p => ((key, v) :: p.1, p.2))
                  else if c3 = rbrace then some ([(key, v)], r4)
                  else none
            else none
      else none

/-- Elements of a JSON array after the opening bracket (nonempty case). -/
def parseElems : Nat → Str → Option (List Json × Str)
  | 0, _ => none
  | fuel+1, s =>
    match parseValue fuel s with
    | none => none
    | some (v, r1) =>
      match skipWs r1 with
      | [] => none
      | c :: r2 =>
        if c = ',' then (parseElems fuel r2).map (fun p => (v :: p.1, p.2))
        else if c = ']' then some ([v], r2)
        else none

end

/-- Model of `JSON.parse`: parse one value and require only whitespace to
remain; `none` models a thrown `SyntaxError`. -/
def parseJson (s : Str) : Option Json :=
  match parseValue (2 * s.length + 4) s with
  | some (v, rest) => if skipWs rest = [] then some v else none
  | none => none

/-- Lowercase hexadecimal digit character. -/
def hexDigitChar (n : Nat) : Char := "0123456789abcdef".data.getD n '0'

/-- Escape of one character inside a `JSON.stringify` string literal (the
two mandatory escapes, the short control escapes, and `\\u00XX` for the
remaining control characters, as `JSON.stringify` emits them). -/
def jsonEscapeChar (c : Char) : Str :=
  if c = '"' then '\\' :: ['"']
  else if c = '\\' then '\\' :: ['\\']
  else if c = '\n' then '\\' :: ['n']
  else if c = '\r' then '\\' :: ['r']
  else if c = '\t' then '\\' :: ['t']
  else if c = Char.ofNat 8 then '\\' :: ['b']
  else if c = Char.ofNat 12 then '\\' :: ['f']
  else if c.toNat < 32 then
    "\\u00".data ++ hexDigitChar (c.toNat / 16) :: [hexDigitChar (c.toNat % 16)]
  else [c]

/-- A `JSON.stringify` string literal. -/
def jsonStrLit (s : Str) : Str :=
  '"' :: (s.flatMap jsonEscapeChar) ++ ['"']

/-- `JSON.stringify({sessionId, scanType, timestamp, expiry})`: the exact
serialization both backends produce for a QR payload (object-literal key
order `sessionId`, `scanType`, `timestamp`, `expiry`). -/
def payloadJson (sessionId scanType : Str) (timestamp expiry : Nat) : Str :=
  "\x7b\"sessionId\":".data ++ jsonStrLit sessionId
    ++ (",\"scanType\":".data ++ jsonStrLit scanType
    ++ (",\"timestamp\":".data ++ natDigits timestamp
    ++ (",\"expiry\":".data ++ natDigits expiry ++ "\x7d".data)))

/-! ## HMAC-SHA256

`crypto.createHmac('sha256', JWT_SECRET).update(token).digest('hex')`, the
signing primitive of the server backend, modelled bit-faithfully over `Nat`
with explicit reduction modulo `2 ^ 32`.  Byte strings are `List Nat` with
entries below 256. -/

/-- UTF-8 encoding of one unicode scalar value (Node's default encoding when
a string is fed to `Hmac.update`). -/
def utf8Char (c : Char) : List Nat :=
  let n := c.toNat
  if n < 128 then [n]
  else if n < 2048 then [192 + n / 64, 128 + n % 64]
  else if n < 65536 then [224 + n / 4096, 128 + n / 64 % 64, 128 + n % 64]
  else [240 + n / 262144, 128 + n / 4096 % 64, 128 + n / 64 % 64, 128 + n % 64]

/-- UTF-8 encoding of a string. -/
def utf8Bytes (s : Str) : List Nat := s.flatMap utf8Char

/-- Right rotation of a 32-bit word. -/
def rotr32 (r w : Nat) : Nat := w / 2 ^ r + (w % 2 ^ r) * 2 ^ (32 - r)

/-- The SHA-256 `Ch` function. -/
def sha256Ch (e f g : Nat) : Nat := (e &&& f) ^^^ ((e ^^^ 4294967295) &&& g)

/-- The SHA-256 `Maj` function. -/
def sha256Maj (a b c : Nat) : Nat := (a &&& b) ^^^ (a &&& c) ^^^ (b &&& c)

/-- The SHA-256 big sigma-0 function. -/
def bigSig0 (w : Nat) : Nat := rotr32 2 w ^^^ rotr32 13 w ^^^ rotr32 22 w

/-- The SHA-256 big sigma-1 function. -/
def bigSig1 (w : Nat) : Nat := rotr32 6 w ^^^ rotr32 11 w ^^^ rotr32 25 w

/-- The SHA-256 small sigma-0 function. -/
def smallSig0 (w : Nat) : Nat := rotr32 7 w ^^^ rotr32 18 w ^^^ (w / 2 ^ 3)

/-- The SHA-256 small sigma-1 function. -/
def smallSig1 (w : Nat) : Nat := rotr32 17 w ^^^ rotr32 19 w ^^^ (w / 2 ^ 10)

/-- The 64 SHA-256 round constants. -/
def sha256K : List Nat :=
  [1116352408, 1899447441, 3049323471, 3921009573,
   961987163, 1508970993, 2453635748, 2870763221,
   3624381080, 310598401, 607225278, 1426881987,
   1925078388, 2162078206, 2614888103, 3248222580,
   3835390401, 4022224774, 264347078, 604807628,
   770255983, 1249150122, 1555081692, 1996064986,
   2554220882, 2821834349, 2952996808, 3210313671,
   3336571891, 3584528711, 113926993, 338241895,
   666307205, 773529912, 1294757372, 1396182291,
   1695183700, 1986661051, 2177026350, 2456956037,
   2730485921, 2820302411, 3259730800, 3345764771,
   3516065817, 3600352804, 4094571909, 275423344,
   430227734, 506948616, 659060556, 883997877,
   958139571, 1322822218, 1537002063, 1747873779,
   1955562222, 2024104815, 2227730452, 2361852424,
   2428436474, 2756734187, 3204031479, 3329325298]

/-- The eight 32-bit words of a SHA-256 chaining state. -/
structure Hash8 where
  a : Nat
  b : Nat
  c : Nat
  d : Nat
  e : Nat
  f : Nat
  g : Nat
  hh : Nat

/-- The SHA-256 initial hash value. -/
def sha256H0 : Hash8 :=
  ⟨1779033703, 3144134277, 1013904242, 2773480762,
   1359893119, 2600822924, 528734635, 1541459225⟩

/-- Big-endian 8-byte encoding of the message bit length. -/
def be64 (n : Nat) : List Nat :=
  [n / 2 ^ 56 % 256, n / 2 ^ 48 % 256, n / 2 ^ 40 % 256, n / 2 ^ 32 % 256,
   n / 2 ^ 24 % 256, n / 2 ^ 16 % 256, n / 2 ^ 8 % 256, n % 256]

/-- SHA-256 message padding: a `0x80` byte, zeros to 56 mod 64, and the
64-bit big-endian bit length. -/
def sha256Pad (msg : List Nat) : List Nat :=
  msg ++ 128 :: List.replicate ((64 - (msg.length + 9) % 64) % 64) 0
    ++ be64 (8 * msg.length)

/-- Split a byte string into chunks of `n` bytes (fuelled recursion). -/
def chunksF : Nat → Nat → List Nat → List (List Nat)
  | 0, _, _ => []
  | _, _, [] => []
  | fuel+1, n, l => l.take n :: chunksF fuel n (l.drop n)

/-- Split a byte string into chunks of `n` bytes. -/
def chunks (n : Nat) (l : List Nat) : List (List Nat) := chunksF l.length n l

/-- The sixteen 32-bit big-endian words of one 64-byte block. -/
def blockWords (block : List Nat) : List Nat :=
  (chunks 4 block).map fun l =>
    l.getD 0 0 * 2 ^ 24 + l.getD 1 0 * 2 ^ 16 + l.getD 2 0 * 2 ^ 8 + l.getD 3 0

/-- Extend sixteen message-schedule words to sixty-four. -/
def msgSchedule (w16 : List Nat) : List Nat :=
  (List.range 48).foldl
    (fun w _ =>
      let j := w.length
      w ++ [(smallSig1 (w.getD (j - 2) 0) + w.getD (j - 7) 0
             + smallSig0 (w.getD (j - 15) 0) + w.getD (j - 16) 0) % 2 ^ 32])
    w16

/-- One SHA-256 round. -/
def sha256Round (st : Hash8) (kw : Nat × Nat) : Hash8 :=
  let t1 := (st.hh + bigSig1 st.e + sha256Ch st.e st.f st.g + kw.1 + kw.2) % 2 ^ 32
  let t2 := (bigSig0 st.a + sha256Maj st.a st.b st.c) % 2 ^ 32
  ⟨(t1 + t2) % 2 ^ 32, st.a, st.b, st.c, (st.d + t1) % 2 ^ 32, st.e, st.f, st.g⟩

/-- The SHA-256 compression function on one 64-byte block. -/
def sha256Compress (h : Hash8) (block : List Nat) : Hash8 :=
  let ws := msgSchedule (blockWords block)
  let st := (sha256K.zip ws).foldl sha256Round h
  ⟨(h.a + st.a) % 2 ^ 32, (h.b + st.b) % 2 ^ 32, (h.c + st.c) % 2 ^ 32,
   (h.d + st.d) % 2 ^ 32, (h.e + st.e) % 2 ^ 32, (h.f + st.f) % 2 ^ 32,
   (h.g + st.g) % 2 ^ 32, (h.hh + st.hh) % 2 ^ 32⟩

/-- Big-endian bytes of one 32-bit word. -/
def wordBytes (w : Nat) : List Nat :=
  [w / 2 ^ 24 % 256, w / 2 ^ 16 % 256, w / 2 ^ 8 % 256, w % 256]

/-- The SHA-256 digest (32 bytes) of a byte string. -/
def sha256 (msg : List Nat) : List Nat :=
  let h := (chunks 64 (sha256Pad msg)).foldl sha256Compress sha256H0
  wordBytes h.a ++ wordBytes h.b ++ wordBytes h.c ++ wordBytes h.d
    ++ wordBytes h.e ++ wordBytes h.f ++ wordBytes h.g ++ wordBytes h.hh

/-- HMAC-SHA256 over byte strings (RFC 2104, 64-byte block size). -/
def hmacSha256 (key msg : List Nat) : List Nat :=
  let k0 := if 64 < key.length then sha256 key else key
  let kp := k0 ++ List.replicate (64 - k0.length) 0
  sha256 ((kp.map fun b => b ^^^ 92) ++ sha256 ((kp.map fun b => b ^^^ 54) ++ msg))

/-- Lowercase-hex rendering of a byte string (`digest('hex')`). -/
def bytesToHex (l : List Nat) : Str :=
  l.flatMap fun b => [hexDigitChar (b / 16 % 16), hexDigitChar (b % 16)]

/-- `crypto.createHmac('sha256', key).update(msg).digest('hex')` on
JavaScript strings. -/
def hmacSha256Hex (key msg : Str) : Str :=
  bytesToHex (hmacSha256 (utf8Bytes key) (utf8Bytes msg))

/-! ## Geodistance calculator

`calculateDistance` (identical in `MockDatabase` and in the server) and the
geofence predicate `isWithinCampus`.  IEEE-754 doubles are modelled by exact
real arithmetic. -/

/-- `Math.atan2(y, x)`: the angle of the point `(x, y)`, following the
JavaScript specification case split (signed zeros play no role here). -/
noncomputable def atan2 (y x : ℝ) : ℝ :=
  if 0 < x then Real.arctan (y / x)
  else if x < 0 then
    (if 0 ≤ y then Real.arctan (y / x) + Real.pi else Real.arctan (y / x) - Real.pi)
  else
    (if 0 < y then Real.pi / 2 else if y < 0 then -(Real.pi / 2) else 0)

/-- `calculateDistance(lat1, lng1, lat2, lng2)`: haversine great-circle
distance in meters with Earth radius `R = 6371e3` (the locals `φ1 φ2 Δφ Δλ a
c` of the source are inlined). -/
noncomputable def calculateDistance (lat1 lng1 lat2 lng2 : ℝ) : ℝ :=
  6371000 *
    (2 * atan2
      (Real.sqrt
        (Real.sin ((lat2 - lat1) * Real.pi / 180 / 2)
            * Real.sin ((lat2 - lat1) * Real.pi / 180 / 2)
          + Real.cos (lat1 * Real.pi / 180) * Real.cos (lat2 * Real.pi / 180)
            * Real.sin ((lng2 - lng1) * Real.pi / 180 / 2)
            * Real.sin ((lng2 - lng1) * Real.pi / 180 / 2)))
      (Real.sqrt
        (1 -
          (Real.sin ((lat2 - lat1) * Real.pi / 180 / 2)
              * Real.sin ((lat2 - lat1) * Real.pi / 180 / 2)
            + Real.cos (lat1 * Real.pi / 180) * Real.cos (lat2 * Real.pi / 180)
              * Real.sin ((lng2 - lng1) * Real.pi / 180 / 2)
              * Real.sin ((lng2 - lng1) * Real.pi / 180 / 2)))))

/-- `CAMPUS_BOUNDARY.lat` (Parul University). -/
noncomputable def campusLat : ℝ := 22.3039

/-- `CAMPUS_BOUNDARY.lng`. -/
noncomputable def campusLng : ℝ := 73.3620

/-- `CAMPUS_BOUNDARY.radius` in meters (also `maxDistance` in the mock). -/
noncomputable def campusRadius : ℝ := 2000

/-- `isWithinCampus(lat, lng)`: the boolean test that the distance to the
campus point is at most the radius. -/
noncomputable def isWithinCampus (lat lng : ℝ) : Bool :=
  decide (calculateDistance lat lng campusLat campusLng ≤ campusRadius)

/-! ## Data model and stores

Sessions and attendance records, with the `Map` (mock) and key-value store
(server) modelled as association lists keyed by the id strings.  Timestamps
(ISO strings or epoch milliseconds in the source) are modelled uniformly as
epoch milliseconds. -/

/-- A session as stored by the mock backend (`interface Session`; the
optional QR token caches of the server variant are in `KvSession`). -/
structure Session where
  id : Str
  subjectId : Str
  facultyId : Str
  date : Str
  inGenerationTs : Nat
  outGenerationTs : Option Nat
  status : Str
deriving DecidableEq

/-- A session as stored by the server backend under `session:<id>` (the
fields this core reads or writes). -/
structure KvSession where
  id : Str
  subjectId : Str
  facultyId : Str
  outGenerationTs : Option Nat
  outQrToken : Option Str
  outQrSignature : Option Str
deriving DecidableEq

/-- An attendance record (`interface AttendanceRecord`), keyed by
`<studentId>:<sessionId>`. -/
structure AttendanceRecord where
  id : Str
  sessionId : Str
  studentId : Str
  subjectId : Str
  inScanTs : Option Nat
  outScanTs : Option Nat
  inScanLocation : Option (ℝ × ℝ)
  outScanLocation : Option (ℝ × ℝ)

/-- A subject (`interface Subject`). -/
structure Subject where
  id : Str
  name : Str
  code : Str
  facultyId : Str
deriving DecidableEq

/-- `Map.prototype.get` / `kv.get` on an association list. -/
def assocGet {α : Type} (m : List (Str × α)) (k : Str) : Option α :=
  (m.find? (fun kv => kv.1 == k)).map (·.2)

/-- `Map.prototype.set` / `kv.set`: replace the binding if the key is
present, append it otherwise. -/
def assocSet {α : Type} (m : List (Str × α)) (k : Str) (v : α) : List (Str × α) :=
  match m with
  | [] => [(k, v)]
  | kv :: rest => if kv.1 == k then (k, v) :: rest else kv :: assocSet rest k v

/-- The mutable stores of the mock backend that this core touches. -/
structure MockState where
  sessions : List (Str × Session)
  attendance : List (Str × AttendanceRecord)

/-- The key-value store of the server backend that this core touches
(`session:<id>` and `attendance:<studentId>:<sessionId>` keys, modelled as
two association lists keyed by the ids). -/
structure KvState where
  sessions : List (Str × KvSession)
  attendance : List (Str × AttendanceRecord)

/-- The session id a scan payload carries, when it is a string (`Map.get` /
`kv.get` with a non-string `sessionId` finds no session, since every stored
key is a string). -/
def sessionIdStr (p : Json) : Option Str :=
  match p.getField "sessionId".data with
  | some (.str s) => some s
  | _ => none

/-- `scanType === 'IN'`: strict equality with the string `'IN'`; every other
payload value (including a missing or non-string `scanType`) is unequal. -/
def scanTypeIsIn (scanType : Option Json) : Bool :=
  match scanType with
  | some (.str s) => s == "IN".data
  | _ => false

/-- The record-update step shared verbatim by both scan handlers
(`if (scanType === 'IN') \x7b in fields \x7d else \x7b out fields \x7d`):
writes the scanned direction's timestamp and location unconditionally. -/
def applyScan (attendance : AttendanceRecord) (scanType : Option Json)
    (now : Nat) (loc : ℝ × ℝ) : AttendanceRecord :=
  if scanTypeIsIn scanType then
    { attendance with inScanTs := some now, inScanLocation := some loc }
  else
    { attendance with outScanTs := some now, outScanLocation := some loc }

/-- `qrPayload.expiry < Date.now()` of the mock scan handler; a missing
`expiry` (`undefined < n`) is `false`.  (Every payload this code builds has
an integral `expiry`.) -/
def expiryLtNow (p : Json) (now : Nat) : Bool :=
  match p.getField "expiry".data with
  | some (.num e) => e < (now : Int)
  | _ => false

namespace MockDatabase

/-- The mock signature `'mock-signature-' + Date.now()` (no MAC). -/
def mockSignature (now : Nat) : Str :=
  "mock-signature-".data ++ natDigits now

/-- `MockDatabase.createSession`: store a fresh active session keyed by
`<subjectId>:<now>` and return its id together with the wire IN token
`<json payload>:<mock signature>`. -/
def createSession (db : MockState) (facultyId subjectId date : Str)
    (now : Nat) : (Str × Str) × MockState :=
  let sessionId := subjectId ++ ':' :: natDigits now
  let session : Session :=
    { id := sessionId, subjectId := subjectId, facultyId := facultyId,
      date := date, inGenerationTs := now, outGenerationTs := none,
      status := "active".data }
  let qrToken := payloadJson sessionId "IN".data now (now + 30 * 60 * 1000)
  ((sessionId, qrToken ++ ':' :: mockSignature now),
    { db with sessions := assocSet db.sessions sessionId session })

/-- `MockDatabase.generateOutQR`: requires the session to exist, records
`outGenerationTs = now` on it, and returns the wire OUT token. -/
def generateOutQR (db : MockState) (sessionId : Str) (now : Nat) :
    Except String Str × MockState :=
  match assocGet db.sessions sessionId with
  | none => (.error "Session not found", db)
  | some session =>
    let qrToken := payloadJson sessionId "OUT".data now (now + 30 * 60 * 1000)
    let updated := { session with outGenerationTs := some now }
    (.ok (qrToken ++ ':' :: mockSignature now),
      { db with sessions := assocSet db.sessions sessionId updated })

/-- `MockDatabase.scanAttendance`: geofence check against the inline campus
constants, then `split(':')` / `JSON.parse` / expiry check, then session
lookup, then the get-or-create and record update, in source order. -/
noncomputable def scanAttendance (db : MockState) (studentId qrData : Str)
    (lat lng : ℝ) (now : Nat) : Except String AttendanceRecord × MockState :=
  if calculateDistance lat lng 22.3039 73.3620 > 2000 then
    (.error "Scan location is outside campus boundary", db)
  else
    match parseJson (firstFrag qrData) with
    | none => (.error "Invalid QR code format", db)
    | some qrPayload =>
      if expiryLtNow qrPayload now then (.error "QR code has expired", db)
      else
        match (sessionIdStr qrPayload).bind
            (fun sid => (assocGet db.sessions sid).map (fun s => (sid, s))) with
        | none => (.error "Session not found", db)
        | some (sid, session) =>
          let attendanceKey := studentId ++ ':' :: sid
          let attendance := (assocGet db.attendance attendanceKey).getD
            { id := attendanceKey, sessionId := sid, studentId := studentId,
              subjectId := session.subjectId, inScanTs := none,
              outScanTs := none, inScanLocation := none, outScanLocation := none }
          let updated :=
            applyScan attendance (qrPayload.getField "scanType".data) now (lat, lng)
          (.ok updated,
            { db with attendance := assocSet db.attendance attendanceKey updated })

/-- The per-subject attendance summary of `MockDatabase.getStudentProfile`
(the same computation backs the server's `/student/:id/profile` route). -/
structure SubjectSummary where
  subject : Str
  code : Str
  totalSessions : Nat
  attendedSessions : Nat
  percentage : Int

/-- One element of the `subjectAttendance` array: sessions of the subject,
the student's records for it, those with both scans, and the rounded
percentage (`Math.round((attendedSessions / totalSessions) * 100)`, `0` when
there are no sessions). -/
def subjectSummary (sessions : List Session) (attendance : List AttendanceRecord)
    (studentId : Str) (subject : Subject) : SubjectSummary :=
  let subjectSessions := sessions.filter (fun s => s.subjectId == subject.id)
  let studentRecords := attendance.filter
    (fun r => r.studentId == studentId && r.subjectId == subject.id)
  let attended := (studentRecords.filter
    (fun r => r.inScanTs.isSome && r.outScanTs.isSome)).length
  { subject := subject.name, code := subject.code,
    totalSessions := subjectSessions.length, attendedSessions := attended,
    percentage :=
      if 0 < subjectSessions.length then
        round (((attended : ℚ) / (subjectSessions.length : ℚ)) * 100)
      else 0 }

end MockDatabase

namespace Server

/-- `JWT_SECRET`, the server-held HMAC key. -/
def jwtSecret : Str := "university-attendance-secret-key".data

/-- `generateQRToken(sessionId, scanType)`: the serialized payload and its
HMAC-SHA256 hex signature. -/
def generateQRToken (sessionId scanType : Str) (now : Nat) : Str × Str :=
  let token := payloadJson sessionId scanType now (now + 30 * 60 * 1000)
  (token, hmacSha256Hex jwtSecret token)

/-- `verifyQRToken(token, signature)`: recompute the HMAC over `token` and
reject on mismatch, then parse, then require `payload.expiry > Date.now()`;
`none` models the `false` returns (the `signature` argument is `none` when
the caller's destructuring produced `undefined`). -/
def verifyQRToken (token : Str) (signature : Option Str) (now : Nat) : Option Json :=
  if signature = some (hmacSha256Hex jwtSecret token) then
    match parseJson token with
    | none => none
    | some payload =>
      match payload.getField "expiry".data with
      | some (.num e) => if (now : Int) < e then some payload else none
      | _ => none
  else none

/-- The `/faculty/session/:id/generate-out` route: 404 `Session not found`
when the session is missing or owned by another faculty; otherwise generate
the OUT token, record `outGenerationTs` and the token on the session, and
return the wire token. -/
def generateOutEndpoint (kv : KvState) (callerId sessionId : Str) (now : Nat) :
    Except String Str × KvState :=
  match assocGet kv.sessions sessionId with
  | none => (.error "Session not found", kv)
  | some session =>
    if session.facultyId = callerId then
      let outQR := generateQRToken sessionId "OUT".data now
      let updated :=
        { session with
          outGenerationTs := some now,
          outQrToken := some outQR.1,
          outQrSignature := some outQR.2 }
      (.ok (outQR.1 ++ ':' :: outQR.2),
        { kv with sessions := assocSet kv.sessions sessionId updated })
    else (.error "Session not found", kv)

/-- The `/attendance/scan` route: geofence via `isWithinCampus`, then
`split(':')` and `verifyQRToken` (with the JavaScript truthiness test
`if (!qrPayload)`), then session lookup, then the get-or-create and record
update, in source order. -/
noncomputable def scanEndpoint (kv : KvState) (studentId qrData : Str)
    (lat lng : ℝ) (now : Nat) : Except String AttendanceRecord × KvState :=
  if isWithinCampus lat lng then
    match verifyQRToken (firstFrag qrData) (secondFrag qrData) now with
    | none => (.error "Invalid or expired QR code", kv)
    | some qrPayload =>
      if jsTruthy qrPayload then
        match (sessionIdStr qrPayload).bind
            (fun sid => (assocGet kv.sessions sid).map (fun s => (sid, s))) with
        | none => (.error "Session not found", kv)
        | some (sid, session) =>
          let attendanceKey := studentId ++ ':' :: sid
          let attendance := (assocGet kv.attendance attendanceKey).getD
            { id := attendanceKey, sessionId := sid, studentId := studentId,
              subjectId := session.subjectId, inScanTs := none,
              outScanTs := none, inScanLocation := none, outScanLocation := none }
          let updated :=
            applyScan attendance (qrPayload.getField "scanType".data) now (lat, lng)
          (.ok updated,
            { kv with attendance := assocSet kv.attendance attendanceKey updated })
      else (.error "Invalid or expired QR code", kv)
  else (.error "Scan location is outside campus boundary", kv)

end Server

/-! ## The claim-side (specification) formulations

Named step functions and spec-worded definitions that the claims are checked
against. -/

/-- The decode step of the mock scan handler (source lines 338–350) as one
function: `split(':')`, `JSON.parse`, expiry check. -/
def mockDecodeQR (qrData : Str) (now : Nat) : Except String Json :=
  match parseJson (firstFrag qrData) with
  | none => .error "Invalid QR code format"
  | some qrPayload =>
    if expiryLtNow qrPayload now then .error "QR code has expired"
    else .ok qrPayload

/-- The decode step of the server scan route as one function: `split(':')`,
`verifyQRToken`, JavaScript truthiness of the result. -/
def serverDecodeQR (qrData : Str) (now : Nat) : Option Json :=
  match Server.verifyQRToken (firstFrag qrData) (secondFrag qrData) now with
  | none => none
  | some p => if jsTruthy p then some p else none

/-- Steps 4–6 of the scan algorithm on the mock store: fetch-or-create the
attendance record for `(studentId, sessionId)`, apply the direction write,
persist. -/
def mockRecordScan (db : MockState) (studentId sid : Str) (session : Session)
    (qrPayload : Json) (lat lng : ℝ) (now : Nat) :
    Except String AttendanceRecord × MockState :=
  let attendanceKey := studentId ++ ':' :: sid
  let attendance := (assocGet db.attendance attendanceKey).getD
    { id := attendanceKey, sessionId := sid, studentId := studentId,
      subjectId := session.subjectId, inScanTs := none,
      outScanTs := none, inScanLocation := none, outScanLocation := none }
  let updated :=
    applyScan attendance (qrPayload.getField "scanType".data) now (lat, lng)
  (.ok updated,
    { db with attendance := assocSet db.attendance attendanceKey updated })

/-- Steps 4–6 of the scan algorithm on the server store. -/
def kvRecordScan (kv : KvState) (studentId sid : Str) (session : KvSession)
    (qrPayload : Json) (lat lng : ℝ) (now : Nat) :
    Except String AttendanceRecord × KvState :=
  let attendanceKey := studentId ++ ':' :: sid
  let attendance := (assocGet kv.attendance attendanceKey).getD
    { id := attendanceKey, sessionId := sid, studentId := studentId,
      subjectId := session.subjectId, inScanTs := none,
      outScanTs := none, inScanLocation := none, outScanLocation := none }
  let updated :=
    applyScan attendance (qrPayload.getField "scanType".data) now (lat, lng)
  (.ok updated,
    { kv with attendance := assocSet kv.attendance attendanceKey updated })

/-- The scan-submission algorithm as the claim orders it, built from the
named steps, short-circuiting on the first failure: (1) geofence, else
`OutsideCampusBoundary`; (2) decode/verify, else that step's error; (3)
session lookup, else `SessionNotFound`; only then (4–6) fetch-or-create and
update the record — mock backend. -/
noncomputable def mockScanSpec (db : MockState) (studentId qrData : Str)
    (lat lng : ℝ) (now : Nat) : Except String AttendanceRecord × MockState :=
  if calculateDistance lat lng 22.3039 73.3620 > 2000 then
    (.error "Scan location is outside campus boundary", db)
  else
    match mockDecodeQR qrData now with
    | .error e => (.error e, db)
    | .ok qrPayload =>
      match (sessionIdStr qrPayload).bind
          (fun sid => (assocGet db.sessions sid).map (fun s => (sid, s))) with
      | none => (.error "Session not found", db)
      | some (sid, session) =>
        mockRecordScan db studentId sid session qrPayload lat lng now

/-- The scan-submission algorithm as the claim orders it — server backend. -/
noncomputable def serverScanSpec (kv : KvState) (studentId qrData : Str)
    (lat lng : ℝ) (now : Nat) : Except String AttendanceRecord × KvState :=
  if isWithinCampus lat lng then
    match serverDecodeQR qrData now with
    | none => (.error "Invalid or expired QR code", kv)
    | some qrPayload =>
      match (sessionIdStr qrPayload).bind
          (fun sid => (assocGet kv.sessions sid).map (fun s => (sid, s))) with
      | none => (.error "Session not found", kv)
      | some (sid, session) =>
        kvRecordScan kv studentId sid session qrPayload lat lng now
  else (.error "Scan location is outside campus boundary", kv)

/-- The haversine great-circle distance with Earth radius 6,371,000 meters,
written from the spec's wording of the geofence predicate (squared
half-angle sines, `2 R atan2(√a, √(1-a))`); compared with the source's
`calculateDistance` in the geofence claim. -/
noncomputable def specHaversineDistance (lat1 lng1 lat2 lng2 : ℝ) : ℝ :=
  2 * 6371000 * atan2
    (Real.sqrt
      (Real.sin ((lat2 - lat1) * Real.pi / 180 / 2) ^ 2
        + Real.cos (lat1 * Real.pi / 180) * Real.cos (lat2 * Real.pi / 180)
          * Real.sin ((lng2 - lng1) * Real.pi / 180 / 2) ^ 2))
    (Real.sqrt
      (1 -
        (Real.sin ((lat2 - lat1) * Real.pi / 180 / 2) ^ 2
          + Real.cos (lat1 * Real.pi / 180) * Real.cos (lat2 * Real.pi / 180)
            * Real.sin ((lng2 - lng1) * Real.pi / 180 / 2) ^ 2)))

/-- Four sample sessions of subject `SUB001`, for the percentage witness. -/
def sampleSessions : List Session :=
  [⟨"SUB001:1".data, "SUB001".data, "FAC001".data, "2024-01-15".data, 0, none, "active".data⟩,
   ⟨"SUB001:2".data, "SUB001".data, "FAC001".data, "2024-01-16".data, 0, none, "active".data⟩,
   ⟨"SUB001:3".data, "SUB001".data, "FAC001".data, "2024-01-17".data, 0, none, "active".data⟩,
   ⟨"SUB001:4".data, "SUB001".data, "FAC001".data, "2024-01-18".data, 0, none, "active".data⟩]

/-- Student STU001's records for `SUB001`: three with both scans, one with
only the IN scan. -/
def sampleAttendance : List AttendanceRecord :=
  [⟨"STU001:SUB001:1".data, "SUB001:1".data, "STU001".data, "SUB001".data,
      some 10, some 20, none, none⟩,
   ⟨"STU001:SUB001:2".data, "SUB001:2".data, "STU001".data, "SUB001".data,
      some 10, some 20, none, none⟩,
   ⟨"STU001:SUB001:3".data, "SUB001:3".data, "STU001".data, "SUB001".data,
      some 10, some 20, none, none⟩,
   ⟨"STU001:SUB001:4".data, "SUB001:4".data, "STU001".data, "SUB001".data,
      some 10, none, none, none⟩]

/-- The subject `SUB001`, for the percentage witness. -/
def sampleSubject : Subject :=
  ⟨"SUB001".data, "Data Structures".data, "CS301".data, "FAC001".data⟩

/-! ## Helper lemmas -/

theorem firstFrag_append (a b : Str) (h : ':' ∉ a) :
    firstFrag (a ++ ':' :: b) = a := by
  induction a with
  | nil => simp [firstFrag]
  | cons c a ih =>
    have hc : c ≠ ':' := fun hc => h (hc ▸ List.mem_cons_self c a)
    have ha : ':' ∉ a := fun ha => h (List.mem_cons_of_mem c ha)
    simp [firstFrag, ih ha, hc]

theorem afterColon_append (a b : Str) (h : ':' ∉ a) :
    afterColon (a ++ ':' :: b) = some b := by
  induction a with
  | nil => simp [afterColon]
  | cons c a ih =>
    have hc : c ≠ ':' := fun hc => h (hc ▸ List.mem_cons_self c a)
    have ha : ':' ∉ a := fun ha => h (List.mem_cons_of_mem c ha)
    simp [afterColon, ih ha, hc]

theorem secondFrag_append (a b : Str) (h : ':' ∉ a) :
    secondFrag (a ++ ':' :: b) = some (firstFrag b) := by
  simp [secondFrag, afterColon_append a b h]

/-- The serialized payload, viewed as the text before its first colon (the
constant fragment `\x7b"sessionId"`) and the text after it. -/
theorem payloadJson_colon_split (sessionId scanType : Str) (timestamp expiry : Nat) :
    payloadJson sessionId scanType timestamp expiry =
      "\x7b\"sessionId\"".data ++ ':' ::
        (jsonStrLit sessionId
          ++ (",\"scanType\":".data ++ jsonStrLit scanType
          ++ (",\"timestamp\":".data ++ natDigits timestamp
          ++ (",\"expiry\":".data ++ natDigits expiry ++ "\x7d".data)))) := rfl

/-- The constant fragment before the first colon of any serialized payload
is not valid JSON: `JSON.parse` rejects it. -/
theorem parse_sessionIdFragment :
    parseJson "\x7b\"sessionId\"".data = none := rfl

theorem sha256_length (msg : List Nat) : (sha256 msg).length = 32 := by
  simp [sha256, wordBytes]

theorem bytesToHex_length (l : List Nat) : (bytesToHex l).length = 2 * l.length := by
  induction l with
  | nil => simp [bytesToHex]
  | cons b l ih =>
    have h : bytesToHex (b :: l) =
        hexDigitChar (b / 16 % 16) :: hexDigitChar (b % 16) :: bytesToHex l := rfl
    rw [h]
    simp only [List.length_cons, ih]
    omega

theorem hmacSha256Hex_length (key msg : Str) : (hmacSha256Hex key msg).length = 64 := by
  simp [hmacSha256Hex, bytesToHex_length, hmacSha256, sha256_length]

theorem atan2_zero_one : atan2 0 1 = 0 := by
  simp [atan2]

theorem atan2_one_zero : atan2 1 0 = Real.pi / 2 := by
  simp [atan2]

/-- The distance from a point to itself is zero. -/
theorem calculateDistance_self (lat lng : ℝ) :
    calculateDistance lat lng lat lng = 0 := by
  simp [calculateDistance, atan2_zero_one]

/-- An off-by-180-degrees latitude yields distance `6371000 * π`. -/
theorem calculateDistance_antipodal (lat lng : ℝ) :
    calculateDistance (lat - 180) lng lat lng = 6371000 * Real.pi := by
  have hd : (lat - (lat - 180)) * Real.pi / 180 / 2 = Real.pi / 2 := by ring
  have hl : (lng - lng) * Real.pi / 180 / 2 = 0 := by ring
  simp [calculateDistance, hd, hl, Real.sin_pi_div_two, atan2_one_zero]
  ring

/-- The antipodal distance exceeds the campus radius. -/
theorem calculateDistance_antipodal_gt (lat lng : ℝ) :
    2000 < calculateDistance (lat - 180) lng lat lng := by
  rw [calculateDistance_antipodal]
  have h3 : (3 : ℝ) < Real.pi := Real.pi_gt_three
  nlinarith

/-- The first `split(':')` fragment of any wire token `<payload>:<signature>`
is the constant `\x7b"sessionId"`: the serialized payload is truncated at its
first colon, whatever the session id, direction, times or signature. -/
theorem payload_firstFrag (sessionId scanType sig : Str) (timestamp expiry : Nat) :
    firstFrag (payloadJson sessionId scanType timestamp expiry ++ ':' :: sig)
      = "\x7b\"sessionId\"".data := by
  rw [payloadJson_colon_split, List.append_assoc, List.cons_append]
  exact firstFrag_append "\x7b\"sessionId\"".data _ (by decide)

/-- The mock decode step rejects every wire token `<payload>:<signature>` as
`Invalid QR code format`, whatever signature accompanies it. -/
theorem mockDecodeQR_payload (sessionId scanType sig : Str) (timestamp expiry now : Nat) :
    mockDecodeQR (payloadJson sessionId scanType timestamp expiry ++ ':' :: sig) now
      = .error "Invalid QR code format" := by
  unfold mockDecodeQR
  rw [payload_firstFrag, parse_sessionIdFragment]

/-- `verifyQRToken` rejects whenever the presented signature differs from
the recomputed HMAC. -/
theorem verifyQRToken_mismatch (token : Str) (sig : Option Str) (now : Nat)
    (h : sig ≠ some (hmacSha256Hex Server.jwtSecret token)) :
    Server.verifyQRToken token sig now = none := by
  unfold Server.verifyQRToken
  rw [if_neg h]

/-- The source's `calculateDistance` computes exactly the spec-worded
haversine distance. -/
theorem calculateDistance_eq_spec (lat1 lng1 lat2 lng2 : ℝ) :
    calculateDistance lat1 lng1 lat2 lng2 = specHaversineDistance lat1 lng1 lat2 lng2 := by
  unfold calculateDistance specHaversineDistance
  have hd : Real.sin ((lat2 - lat1) * Real.pi / 180 / 2) ^ 2 =
      Real.sin ((lat2 - lat1) * Real.pi / 180 / 2)
        * Real.sin ((lat2 - lat1) * Real.pi / 180 / 2) := by ring
  have hs : Real.cos (lat1 * Real.pi / 180) * Real.cos (lat2 * Real.pi / 180)
        * Real.sin ((lng2 - lng1) * Real.pi / 180 / 2) ^ 2 =
      Real.cos (lat1 * Real.pi / 180) * Real.cos (lat2 * Real.pi / 180)
        * Real.sin ((lng2 - lng1) * Real.pi / 180 / 2)
        * Real.sin ((lng2 - lng1) * Real.pi / 180 / 2) := by ring
  rw [hd, hs]
  ring

/-- The mock scan handler equals the spec-ordered composition of its steps. -/
theorem mockScan_eq_spec (db : MockState) (studentId qrData : Str)
    (lat lng : ℝ) (now : Nat) :
    MockDatabase.scanAttendance db studentId qrData lat lng now
      = mockScanSpec db studentId qrData lat lng now := by
  unfold MockDatabase.scanAttendance mockScanSpec mockDecodeQR mockRecordScan
  split
  · rfl
  · cases hp : parseJson (firstFrag qrData) with
    | none => simp [hp]
    | some p =>
      simp only [hp]
      cases he : expiryLtNow p now with
      | true => simp
      | false =>
        simp only [Bool.false_eq_true, if_false]

/-- The server scan route equals the spec-ordered composition of its steps. -/
theorem serverScan_eq_spec (kv : KvState) (studentId qrData : Str)
    (lat lng : ℝ) (now : Nat) :
    Server.scanEndpoint kv studentId qrData lat lng now
      = serverScanSpec kv studentId qrData lat lng now := by
  unfold Server.scanEndpoint serverScanSpec serverDecodeQR kvRecordScan
  cases hw : isWithinCampus lat lng with
  | false => simp
  | true =>
    simp only [if_true]
    cases hv : Server.verifyQRToken (firstFrag qrData) (secondFrag qrData) now with
    | none => simp [hv]
    | some p =>
      simp only [hv]
      cases ht : jsTruthy p with
      | false => simp [ht]
      | true =>
        simp only [if_true]

/-! ## Claim theorems -/

/-- C4: `withinCampus(lat, lng)` holds exactly when the haversine
great-circle distance (Earth radius 6,371,000 m) from `(lat, lng)` to the
campus point `(22.3039, 73.3620)` is at most 2000 meters; the inclusive
`≤` makes the boundary case of exactly 2000 meters accepted. -/
theorem withinCampus_iff_haversine (lat lng : ℝ) :
    isWithinCampus lat lng = true ↔
      specHaversineDistance lat lng 22.3039 73.3620 ≤ 2000 := by
  unfold isWithinCampus campusLat campusLng campusRadius
  rw [decide_eq_true_eq, calculateDistance_eq_spec]

/-- C3: both scan handlers perform their checks in the claimed order,
short-circuiting on the first failure — geofence (a request that is outside
campus fails with the campus-boundary error whatever token it carries), then
token decode/verify (failing with that step's error), then session lookup
(failing with `Session not found`), and only then the fetch-or-create and
record update: each handler equals the spec-ordered composition of the named
step functions. -/
theorem scan_check_order :
    (∀ (db : MockState) (studentId qrData : Str) (lat lng : ℝ) (now : Nat),
      MockDatabase.scanAttendance db studentId qrData lat lng now
        = mockScanSpec db studentId qrData lat lng now)
    ∧ (∀ (kv : KvState) (studentId qrData : Str) (lat lng : ℝ) (now : Nat),
      Server.scanEndpoint kv studentId qrData lat lng now
        = serverScanSpec kv studentId qrData lat lng now) :=
  ⟨mockScan_eq_spec, serverScan_eq_spec⟩

/-- C7: a scan whose coordinates fail the geofence check fails with
`Scan location is outside campus boundary` and returns the stores unchanged
— no attendance record is created or mutated and no session is mutated — in
both backends, whatever token it carries. -/
theorem outside_campus_rejected (db : MockState) (kv : KvState)
    (studentId qrData : Str) (lat lng : ℝ) (now : Nat)
    (h : calculateDistance lat lng 22.3039 73.3620 > 2000) :
    MockDatabase.scanAttendance db studentId qrData lat lng now
      = (.error "Scan location is outside campus boundary", db)
    ∧ Server.scanEndpoint kv studentId qrData lat lng now
      = (.error "Scan location is outside campus boundary", kv) := by
  constructor
  · unfold MockDatabase.scanAttendance
    rw [if_pos h]
  · unfold Server.scanEndpoint
    have hb : isWithinCampus lat lng = false := by
      unfold isWithinCampus campusLat campusLng campusRadius
      exact decide_eq_false (not_le.mpr h)
    rw [hb]
    rfl

/-- C7 witness: a student at latitude `22.3039 - 180` (a point at distance
`6371000 * π` meters from campus, e.g. the scenario's far-away student with
a valid token) is rejected with the campus-boundary error, and the stores
come back unchanged. -/
theorem outside_campus_rejected_witness :
    calculateDistance (22.3039 - 180) 73.3620 22.3039 73.3620 > 2000
    ∧ MockDatabase.scanAttendance ⟨[], []⟩ "STU001".data "q".data (22.3039 - 180) 73.3620 0
        = (.error "Scan location is outside campus boundary", (⟨[], []⟩ : MockState))
    ∧ Server.scanEndpoint ⟨[], []⟩ "STU001".data "q".data (22.3039 - 180) 73.3620 0
        = (.error "Scan location is outside campus boundary", (⟨[], []⟩ : KvState)) :=
  ⟨calculateDistance_antipodal_gt 22.3039 73.3620,
    (outside_campus_rejected ⟨[], []⟩ ⟨[], []⟩ "STU001".data "q".data
      (22.3039 - 180) 73.3620 0 (calculateDistance_antipodal_gt 22.3039 73.3620)).1,
    (outside_campus_rejected ⟨[], []⟩ ⟨[], []⟩ "STU001".data "q".data
      (22.3039 - 180) 73.3620 0 (calculateDistance_antipodal_gt 22.3039 73.3620)).2⟩

/-- C1 (amended): tampering never gets a token accepted, but the failure is
not a `SignatureMismatch`: the mock backend's decode recomputes no MAC at
all and rejects every wire token `<payload>:<signature>` — whatever
(tampered) signature accompanies it — with the malformed-token error
`Invalid QR code format`; the server's `verifyQRToken` does recompute the
HMAC over the presented token and rejects whenever it differs from the
presented signature (returning its generic `false`, not a distinct
signature-mismatch error). -/
theorem tamper_rejection :
    (∀ (sessionId scanType sig : Str) (timestamp expiry now : Nat),
      mockDecodeQR (payloadJson sessionId scanType timestamp expiry ++ ':' :: sig) now
        = .error "Invalid QR code format")
    ∧ (∀ (token : Str) (sig : Option Str) (now : Nat),
        sig ≠ some (hmacSha256Hex Server.jwtSecret token) →
        Server.verifyQRToken token sig now = none) :=
  ⟨fun sessionId scanType sig timestamp expiry now =>
      mockDecodeQR_payload sessionId scanType sig timestamp expiry now,
    fun token sig now h => verifyQRToken_mismatch token sig now h⟩

/-- C1 witness: the 13-character garbage signature `bad-signature` cannot be
the 64-hex-character recomputed digest, so `verifyQRToken` rejects the pair;
and the mock decode rejects a concrete signature-tampered wire token with
`Invalid QR code format`. -/
theorem tamper_rejection_witness :
    some "bad-signature".data ≠ some (hmacSha256Hex Server.jwtSecret "\x7b\x7d".data)
    ∧ Server.verifyQRToken "\x7b\x7d".data (some "bad-signature".data) 0 = none
    ∧ mockDecodeQR (payloadJson "SUB001:1".data "IN".data 0 1800000 ++ ':' :: "garbage".data) 5
        = .error "Invalid QR code format" := by
  have hne : some "bad-signature".data
      ≠ some (hmacSha256Hex Server.jwtSecret "\x7b\x7d".data) := by
    intro h
    have h2 := congrArg List.length (Option.some.inj h)
    rw [hmacSha256Hex_length] at h2
    exact absurd h2 (by decide)
  exact ⟨hne, tamper_rejection.2 "\x7b\x7d".data (some "bad-signature".data) 0 hne,
    tamper_rejection.1 "SUB001:1".data "IN".data "garbage".data 0 1800000 5⟩

/-- C1 counterexample: flipping bits in (indeed, entirely replacing) the
signature of an encoded token does not produce a signature-mismatch
failure: the mock scan decode rejects the tampered token with the
malformed-token error `Invalid QR code format`, the exact same outcome as
for the untampered token — the signature is never consulted. -/
theorem tamper_signature_ignored_cex :
    mockDecodeQR
        (payloadJson "SUB001:1700".data "IN".data 1700 1801700 ++ ':' :: "tampered".data) 1700
      = .error "Invalid QR code format"
    ∧ mockDecodeQR
        (payloadJson "SUB001:1700".data "IN".data 1700 1801700 ++ ':' :: "tampered".data) 1700
      = mockDecodeQR
        (payloadJson "SUB001:1700".data "IN".data 1700 1801700
          ++ ':' :: MockDatabase.mockSignature 1700) 1700 :=
  ⟨rfl, rfl⟩

set_option maxRecDepth 8192 in
/-- C2 (the code violates the claim): decoding a freshly encoded wire token
immediately — well before expiry — fails in both backends.  The payload JSON
always contains colons, so `const [token, signature] = qrData.split(':')`
truncates it to the unparseable fragment `\x7b"sessionId"`: the mock decode
reports `Invalid QR code format` on the very token `createSession` just
returned, and the server decode rejects the wire token built from
`generateQRToken` because the second fragment `"SUB001` is not the
64-character recomputed digest. -/
theorem roundtrip_decode_fails :
    mockDecodeQR
      ((MockDatabase.createSession ⟨[], []⟩ "FAC001".data "SUB001".data
          "2024-01-15".data 1700000000000).1.2) 1700000000000
      = .error "Invalid QR code format"
    ∧ serverDecodeQR
        ((Server.generateQRToken "SUB001:1700000000000".data "IN".data 1700000000000).1
          ++ ':' ::
            (Server.generateQRToken "SUB001:1700000000000".data "IN".data 1700000000000).2)
        1700000000000 = none := by
  constructor
  · rfl
  · have hw : (Server.generateQRToken "SUB001:1700000000000".data "IN".data 1700000000000).1
          ++ ':' ::
            (Server.generateQRToken "SUB001:1700000000000".data "IN".data 1700000000000).2
        = payloadJson "SUB001:1700000000000".data "IN".data 1700000000000 1700001800000
          ++ ':' :: hmacSha256Hex Server.jwtSecret
              (payloadJson "SUB001:1700000000000".data "IN".data 1700000000000 1700001800000) :=
      rfl
    rw [hw]
    unfold serverDecodeQR
    have h1 : firstFrag
          (payloadJson "SUB001:1700000000000".data "IN".data 1700000000000 1700001800000
            ++ ':' :: hmacSha256Hex Server.jwtSecret
                (payloadJson "SUB001:1700000000000".data "IN".data 1700000000000 1700001800000))
        = "\x7b\"sessionId\"".data :=
      payload_firstFrag "SUB001:1700000000000".data "IN".data
        (hmacSha256Hex Server.jwtSecret
          (payloadJson "SUB001:1700000000000".data "IN".data 1700000000000 1700001800000))
        1700000000000 1700001800000
    have h2 : secondFrag
          (payloadJson "SUB001:1700000000000".data "IN".data 1700000000000 1700001800000
            ++ ':' :: hmacSha256Hex Server.jwtSecret
                (payloadJson "SUB001:1700000000000".data "IN".data 1700000000000 1700001800000))
        = some "\"SUB001".data := by
      rw [payloadJson_colon_split, List.append_assoc, List.cons_append]
      exact (secondFrag_append "\x7b\"sessionId\"".data _ (by decide)).trans rfl
    rw [h1, h2]
    have hne : some "\"SUB001".data
        ≠ some (hmacSha256Hex Server.jwtSecret "\x7b\"sessionId\"".data) := by
      intro h
      have h3 := congrArg List.length (Option.some.inj h)
      rw [hmacSha256Hex_length] at h3
      exact absurd h3 (by decide)
    rw [verifyQRToken_mismatch "\x7b\"sessionId\"".data (some "\"SUB001".data) 1700000000000 hne]

set_option maxRecDepth 8192 in
/-- C5 (the code violates the claim): at exactly `issuedAt + 1_800_000` the
claim says decoding succeeds, but the mock decode rejects the fresh wire
token as `Invalid QR code format` (the split truncates the payload before
the expiry check can run), and the server's `verifyQRToken` — handed the
unsplit token with its correct signature — rejects the boundary instant too,
because it demands `expiry > now` strictly.  The mock's own comparison
`expiry < now`, by contrast, does treat the boundary instant as not expired,
as the claim states (third conjunct, on the parsed payload). -/
theorem expiry_boundary_fails :
    mockDecodeQR
        (payloadJson "S1".data "IN".data 0 1800000 ++ ':' :: MockDatabase.mockSignature 0)
        1800000
      = .error "Invalid QR code format"
    ∧ Server.verifyQRToken (payloadJson "S1".data "IN".data 0 1800000)
        (some (hmacSha256Hex Server.jwtSecret (payloadJson "S1".data "IN".data 0 1800000)))
        1800000 = none
    ∧ expiryLtNow
        (Json.obj [("sessionId".data, Json.str "S1".data),
          ("scanType".data, Json.str "IN".data),
          ("timestamp".data, Json.num 0), ("expiry".data, Json.num 1800000)])
        1800000 = false := by
  refine ⟨rfl, ?_, rfl⟩
  unfold Server.verifyQRToken
  have hc : some (hmacSha256Hex Server.jwtSecret (payloadJson "S1".data "IN".data 0 1800000))
      = some (hmacSha256Hex Server.jwtSecret (payloadJson "S1".data "IN".data 0 1800000)) := rfl
  rw [if_pos hc]
  rfl

/-- C6 (the code violates the claim): the record-update step overwrites an
already-set IN field on a second IN scan — the recorded IN timestamp moves
from 1700 to 1800 and the IN location is replaced — instead of preserving
the first write.  (The already-recorded OUT fields are left intact, as the
unchanged fields of the right-hand record show.) -/
theorem duplicate_in_scan_overwrites :
    applyScan
      ⟨"STU001:S1".data, "S1".data, "STU001".data, "SUB001".data,
        some 1700, some 1750, some (22.3030, 73.3610), some (22.3031, 73.3611)⟩
      (some (Json.str "IN".data)) 1800 (22.3039, 73.3620)
      = ⟨"STU001:S1".data, "S1".data, "STU001".data, "SUB001".data,
          some 1800, some 1750, some (22.3039, 73.3620), some (22.3031, 73.3611)⟩ :=
  rfl

/-- C10: a payload whose `scanType` is any string other than `'IN'` — in
particular one that is neither `'IN'` nor `'OUT'` — is not rejected: the
update step records it as an OUT scan, setting the OUT timestamp and
location and leaving every other field unchanged, because the only direction
test in the handler is the strict equality with `'IN'`. -/
theorem unknown_scanType_records_out (r : AttendanceRecord) (s : Str)
    (now : Nat) (loc : ℝ × ℝ) (h : s ≠ "IN".data) :
    applyScan r (some (Json.str s)) now loc
      = { r with outScanTs := some now, outScanLocation := some loc } := by
  have hb : scanTypeIsIn (some (Json.str s)) = false := by
    unfold scanTypeIsIn
    exact beq_eq_false_iff_ne.mpr h
  unfold applyScan
  rw [hb]
  rfl

/-- C10 witness: the direction `XX` (neither `IN` nor `OUT`) is recorded as
an OUT scan on a fresh record. -/
theorem unknown_scanType_records_out_witness :
    "XX".data ≠ "IN".data
    ∧ applyScan
        ⟨"STU001:S1".data, "S1".data, "STU001".data, "SUB001".data,
          none, none, none, none⟩
        (some (Json.str "XX".data)) 5 (22.3039, 73.3620)
      = { (⟨"STU001:S1".data, "S1".data, "STU001".data, "SUB001".data,
            none, none, none, none⟩ : AttendanceRecord) with
          outScanTs := some 5, outScanLocation := some (22.3039, 73.3620) } :=
  ⟨by decide,
    unknown_scanType_records_out
      ⟨"STU001:S1".data, "S1".data, "STU001".data, "SUB001".data,
        none, none, none, none⟩
      "XX".data 5 (22.3039, 73.3620) (by decide)⟩

/-- C8 (amended): the mock `generateOutQR` fails with `Session not found`
exactly when the session id is unbound, and otherwise stamps
`outGenerationTs = now` on the session, persists it, and returns the
wire-format OUT token for that session id; the server endpoint succeeds
exactly when the session exists AND belongs to the calling faculty — a
session owned by another faculty is also reported as `Session not found`. -/
theorem generateOut_conditions (db : MockState) (kv : KvState)
    (caller sessionId : Str) (now : Nat) :
    ((∃ t, (MockDatabase.generateOutQR db sessionId now).1 = .ok t) ↔
      (assocGet db.sessions sessionId).isSome = true)
    ∧ (∀ s, assocGet db.sessions sessionId = some s →
        MockDatabase.generateOutQR db sessionId now
          = (.ok (payloadJson sessionId "OUT".data now (now + 30 * 60 * 1000)
                ++ ':' :: MockDatabase.mockSignature now),
             { db with sessions := assocSet db.sessions sessionId ({ s with outGenerationTs := some now }) }))
    ∧ ((∃ t, (Server.generateOutEndpoint kv caller sessionId now).1 = .ok t) ↔
        ∃ s, assocGet kv.sessions sessionId = some s ∧ s.facultyId = caller) := by
  refine ⟨?_, ?_, ?_⟩
  · cases h : assocGet db.sessions sessionId with
    | none => simp [MockDatabase.generateOutQR, h]
    | some s => simp [MockDatabase.generateOutQR, h]
  · intro s hs
    simp [MockDatabase.generateOutQR, hs]
  · cases h : assocGet kv.sessions sessionId with
    | none => simp [Server.generateOutEndpoint, h]
    | some s =>
      by_cases hf : s.facultyId = caller
      · simp [Server.generateOutEndpoint, h, hf]
      · simp [Server.generateOutEndpoint, h, hf]

/-- C8 witness: with the session `S1` stored, `generateOutQR` succeeds,
stamps `outGenerationTs = 7` on the persisted session, and returns the wire
OUT token. -/
theorem generateOut_conditions_witness :
    assocGet (MockState.mk
        [("S1".data, ⟨"S1".data, "SUB001".data, "FAC001".data, "2024-01-15".data,
          0, none, "active".data⟩)] []).sessions "S1".data
      = some ⟨"S1".data, "SUB001".data, "FAC001".data, "2024-01-15".data,
          0, none, "active".data⟩
    ∧ MockDatabase.generateOutQR (MockState.mk
        [("S1".data, ⟨"S1".data, "SUB001".data, "FAC001".data, "2024-01-15".data,
          0, none, "active".data⟩)] []) "S1".data 7
      = (.ok (payloadJson "S1".data "OUT".data 7 1800007
            ++ ':' :: MockDatabase.mockSignature 7),
         MockState.mk
          [("S1".data, ⟨"S1".data, "SUB001".data, "FAC001".data, "2024-01-15".data,
            0, some 7, "active".data⟩)] []) :=
  ⟨rfl,
    (generateOut_conditions
      (MockState.mk
        [("S1".data, ⟨"S1".data, "SUB001".data, "FAC001".data, "2024-01-15".data,
          0, none, "active".data⟩)] [])
      ⟨[], []⟩ [] "S1".data 7).2.1
      ⟨"S1".data, "SUB001".data, "FAC001".data, "2024-01-15".data,
        0, none, "active".data⟩ rfl⟩

/-- C8 counterexample: a session that exists but belongs to faculty
`FAC002` makes the server's generate-out endpoint fail with `Session not
found` when faculty `FAC001` calls it — so "fails with SessionNotFound if
and only if no session with that id exists" is false on the code. -/
theorem generateOut_foreign_faculty_cex :
    assocGet (KvState.mk
        [("S1".data, ⟨"S1".data, "SUB001".data, "FAC002".data, none, none, none⟩)]
        []).sessions "S1".data
      = some ⟨"S1".data, "SUB001".data, "FAC002".data, none, none, none⟩
    ∧ Server.generateOutEndpoint (KvState.mk
        [("S1".data, ⟨"S1".data, "SUB001".data, "FAC002".data, none, none, none⟩)] [])
        "FAC001".data "S1".data 7
      = (.error "Session not found", KvState.mk
          [("S1".data, ⟨"S1".data, "SUB001".data, "FAC002".data, none, none, none⟩)] []) :=
  ⟨rfl, rfl⟩

/-- C9: the per-subject summary counts a session as attended only when the
student's record has both the IN and the OUT scan set, and reports
`round(attendedSessions / totalSessions * 100)`: whenever the filters yield
4 total sessions and 3 fully scanned records, the reported percentage
is 75. -/
theorem attendance_percentage (sessions : List Session)
    (attendance : List AttendanceRecord) (studentId : Str) (subject : Subject)
    (htotal : (MockDatabase.subjectSummary sessions attendance studentId subject).totalSessions = 4)
    (hatt : (MockDatabase.subjectSummary sessions attendance studentId subject).attendedSessions = 3) :
    (MockDatabase.subjectSummary sessions attendance studentId subject).percentage = 75 := by
  unfold MockDatabase.subjectSummary at htotal hatt ⊢
  dsimp only at htotal hatt ⊢
  rw [htotal, hatt]
  norm_num [round_eq]

/-- C9 witness: with 4 sessions of `SUB001` and 3 records bearing both
scans (a fourth record has only the IN scan), the summary reports 4 total
sessions, 3 attended, percentage 75. -/
theorem attendance_percentage_witness :
    (MockDatabase.subjectSummary sampleSessions sampleAttendance "STU001".data
        sampleSubject).totalSessions = 4
    ∧ (MockDatabase.subjectSummary sampleSessions sampleAttendance "STU001".data
        sampleSubject).attendedSessions = 3
    ∧ (MockDatabase.subjectSummary sampleSessions sampleAttendance "STU001".data
        sampleSubject).percentage = 75 :=
  ⟨rfl, rfl,
    attendance_percentage sampleSessions sampleAttendance "STU001".data sampleSubject rfl rfl⟩
